import Mathlib

/-!
Shallow embedding of `src/app/api/webhook/route.ts` (Instagram webhook
receiver): the GET verification handler, the POST event processor, and the
`sendPrivateReply` dispatcher.

Modelling conventions:
- Environment variables (`process.env.*`) are `Option String` (`none` =
  unset / `undefined`).
- JavaScript truthiness of a possibly-absent string (`!rawText`) is
  `truthyStr`: `none` and `some ""` are falsy.
- JavaScript strict equality between a query parameter (`string | null`)
  and an env variable (`string | undefined`) is `optStrEq`: `null`,
  `undefined` and strings are pairwise distinct values, so the comparison
  holds only when both sides are present strings and equal.
- `await req.json()` is a parameter `parse : Except Unit WebhookPayload`:
  `.error ()` models a JSON parse failure (thrown, caught by the handler's
  `catch`).
- A `change.value` that is absent at runtime is `value = none`; the code
  reads `change.value.text` unconditionally once `field == "comments"`, so
  that access throws (modelled as `.error ()` from `processChange`,
  propagating to the handler's `catch`).
- The outbound `fetch` in `sendPrivateReply` is abstracted by a
  `FetchOutcome`: the transport call throwing (timeout, DNS, reset, or
  `response.json()` failing on a non-JSON body), or a parsed JSON response
  with or without an `error` field. A batch run receives an oracle
  `Nat → FetchOutcome` giving the outcome of each successive dispatch.
-/

namespace InstaDM

/-- The `from` field of a change value: `{ id: string; username: string }`. -/
structure UserRef where
  id : String
  username : String
deriving DecidableEq

/-- The `value` record of a `WebhookChange`; every field is optional in the
source (`from?`, `item?`, `comment_id?`, `text?`, `post_id?`). -/
structure ChangeValue where
  from_ : Option UserRef
  item : Option String
  comment_id : Option String
  text : Option String
  post_id : Option String
deriving DecidableEq

/-- `WebhookChange { field: string; value: {...} }`. The TypeScript type
declares `value` as required, but the runtime payload may omit it; the code
dereferences `change.value.text` without a check, so `value = none` models
the shape fault that throws there. -/
structure WebhookChange where
  field : String
  value : Option ChangeValue
deriving DecidableEq

/-- `WebhookEntry { id: string; changes?: WebhookChange[] }`. -/
structure WebhookEntry where
  id : String
  changes : Option (List WebhookChange)
deriving DecidableEq

/-- `WebhookPayload { object: string; entry: WebhookEntry[] }`. The code
guards with `body.entry || []`, so `entry` is modelled as optional. -/
structure WebhookPayload where
  object : String
  entry : Option (List WebhookEntry)
deriving DecidableEq

/-- An HTTP response produced by the POST handler: status and body. -/
structure Response where
  status : Nat
  body : String
deriving DecidableEq

/-- A GET response; the body is optional because `new NextResponse(challenge)`
may receive a null challenge. -/
structure GetResponse where
  status : Nat
  body : Option String
deriving DecidableEq

/-- The query parameters of a GET verification request, each `string | null`
as returned by `searchParams.get`. -/
structure GetRequest where
  mode : Option String
  token : Option String
  challenge : Option String
deriving DecidableEq

/-- The outbound private-reply payload built by `sendPrivateReply`:
`{ recipient: { comment_id }, message: { text } }`. -/
structure ReplyRequest where
  recipient_comment_id : String
  message_text : String
deriving DecidableEq

/-- Outcome of the outbound `fetch` + `response.json()` in
`sendPrivateReply`: the call throws (network fault or non-JSON body), or a
JSON body is obtained, `hasError` recording whether it carries an `error`
field. -/
inductive FetchOutcome where
  | throws : FetchOutcome
  | responds : (hasError : Bool) → FetchOutcome
deriving DecidableEq

/-- What `sendPrivateReply` logs for one dispatch: the three branches of its
internal result handling. -/
inductive DispatchLog where
  | success : DispatchLog
  | apiError : DispatchLog
  | transportError : DispatchLog
deriving DecidableEq

/-- JavaScript truthiness of a possibly-absent string: `undefined`/`null`
and the empty string are falsy. -/
def truthyStr : Option String → Bool
  | none => false
  | some s => s != ""

/-- JavaScript strict equality between a `string | null` query parameter and
a `string | undefined` env value: true only when both are present strings
and equal (`null === undefined` is false). -/
def optStrEq : Option String → Option String → Bool
  | some a, some b => a == b
  | _, _ => false

/-- JavaScript `hay.includes(needle)`: substring containment, phrased on the
character sequences of the strings. -/
def strIncludes (hay needle : List Char) : Bool :=
  hay.tails.any fun t => needle.isPrefixOf t

/-- JavaScript `toLowerCase()`, character by character (the inputs here are
code points whose lowercase mapping is 1-to-1). -/
def jsToLowerCase (s : String) : List Char :=
  s.toList.map Char.toLower

/-- The keyword test on a present comment text:
`rawText.toLowerCase().includes('roadmap')`. -/
def keywordHit (rawText : String) : Bool :=
  strIncludes (jsToLowerCase rawText) "roadmap".toList

/-- The fixed reply message sent for every matched comment. -/
def FIXED_MESSAGE : String :=
  "Hey! 👋 Here is the link to the roadmap you asked for: https://ontheorbit.com/roadmap"

/-- The outbound payload `sendPrivateReply` builds for a comment id. -/
def replyPayload (commentId : String) : ReplyRequest :=
  { recipient_comment_id := commentId, message_text := FIXED_MESSAGE }

/-- Body of `sendPrivateReply` after the payload is built: run the transport
call, then branch on `data.error`. `.error ()` stands for the thrown
exception that the function's own `catch` block swallows. -/
def fetchJson : FetchOutcome → Except Unit Bool
  | FetchOutcome.throws => Except.error ()
  | FetchOutcome.responds hasError => Except.ok hasError

/-- `sendPrivateReply(commentId)`: sends the fixed reply and converts every
outcome of the outbound call into a log value; it never throws and has no
error-carrying return. The comment id addresses the reply but does not
influence the outcome handling. -/
def sendPrivateReply (_commentId : String) (o : FetchOutcome) : DispatchLog :=
  match fetchJson o with
  | Except.ok true => DispatchLog.apiError
  | Except.ok false => DispatchLog.success
  | Except.error _ => DispatchLog.transportError

/-- The GET verification handler: answer the challenge iff
`mode === 'subscribe' && token === VERIFY_TOKEN`. -/
def GET (VERIFY_TOKEN : Option String) (req : GetRequest) : GetResponse :=
  if req.mode == some "subscribe" && optStrEq req.token VERIFY_TOKEN then
    { status := 200, body := req.challenge }
  else
    { status := 403, body := some "Forbidden" }

/-- One iteration of the inner `for (const change of changes)` loop: decide
whether this change dispatches a reply (`.ok (some commentId)`), is skipped
(`.ok none`), or throws (`.error ()`, when `change.value` is absent and the
code dereferences it). -/
def processChange (c : WebhookChange) : Except Unit (Option String) :=
  if c.field == "comments" then
    match c.value with
    | none => Except.error ()
    | some v =>
      let rawText := v.text
      let commentId := v.comment_id
      if !truthyStr rawText || !truthyStr commentId then Except.ok none
      else if keywordHit (rawText.getD "") then Except.ok commentId
      else Except.ok none
  else Except.ok none

/-- The inner loop over one entry's changes. Returns the comment ids
dispatched, in order, and whether an exception was thrown (which stops the
loop; dispatches already made are kept). -/
def processChanges : List WebhookChange → List String × Bool
  | [] => ([], false)
  | c :: cs =>
    match processChange c with
    | Except.error _ => ([], true)
    | Except.ok none => processChanges cs
    | Except.ok (some cid) =>
      let r := processChanges cs
      (cid :: r.1, r.2)

/-- The outer loop over `entries`; a throw inside one entry stops the whole
batch. -/
def processEntries : List WebhookEntry → List String × Bool
  | [] => ([], false)
  | e :: es =>
    let r := processChanges (e.changes.getD [])
    if r.2 then r
    else
      let r2 := processEntries es
      (r.1 ++ r2.1, r2.2)

/-- The POST handler. Returns the HTTP response together with the list of
reply payloads dispatched (in dispatch order). The credential check runs
before the body is parsed; the surrounding `try/catch` turns any thrown
fault into `200 Internal Server Error Handled`. -/
def POST (PAGE_ACCESS_TOKEN : Option String)
    (parse : Except Unit WebhookPayload) : Response × List ReplyRequest :=
  if !truthyStr PAGE_ACCESS_TOKEN then
    ({ status := 500, body := "Server Config Error" }, [])
  else
    match parse with
    | Except.error _ =>
      ({ status := 200, body := "Internal Server Error Handled" }, [])
    | Except.ok body =>
      if body.object == "instagram" then
        let r := processEntries (body.entry.getD [])
        if r.2 then
          ({ status := 200, body := "Internal Server Error Handled" },
           r.1.map replyPayload)
        else
          ({ status := 200, body := "EVENT_RECEIVED" }, r.1.map replyPayload)
      else
        ({ status := 404, body := "Not Found" }, [])

/-- State of the oracle-instrumented loops: dispatched ids, the logs the
dispatcher produced, the index of the next dispatch, and the crash flag. -/
structure LoopResult where
  dispatched : List String
  logs : List DispatchLog
  nextIdx : Nat
  crashed : Bool
deriving DecidableEq

/-- The inner loop instrumented with a fetch-outcome oracle: the i-th
dispatch of the batch observes `oracle i`. -/
def processChangesO (oracle : Nat → FetchOutcome) :
    Nat → List WebhookChange → LoopResult
  | i, [] => { dispatched := [], logs := [], nextIdx := i, crashed := false }
  | i, c :: cs =>
    match processChange c with
    | Except.error _ =>
      { dispatched := [], logs := [], nextIdx := i, crashed := true }
    | Except.ok none => processChangesO oracle i cs
    | Except.ok (some cid) =>
      let log := sendPrivateReply cid (oracle i)
      let r := processChangesO oracle (i + 1) cs
      { dispatched := cid :: r.dispatched, logs := log :: r.logs,
        nextIdx := r.nextIdx, crashed := r.crashed }

/-- The outer loop instrumented with the oracle. -/
def processEntriesO (oracle : Nat → FetchOutcome) :
    Nat → List WebhookEntry → LoopResult
  | i, [] => { dispatched := [], logs := [], nextIdx := i, crashed := false }
  | i, e :: es =>
    let r := processChangesO oracle i (e.changes.getD [])
    if r.crashed then r
    else
      let r2 := processEntriesO oracle r.nextIdx es
      { dispatched := r.dispatched ++ r2.dispatched,
        logs := r.logs ++ r2.logs, nextIdx := r2.nextIdx,
        crashed := r2.crashed }

/-- The POST handler instrumented with the oracle: also returns the logs of
the successive dispatcher invocations. -/
def POSTO (PAGE_ACCESS_TOKEN : Option String)
    (parse : Except Unit WebhookPayload) (oracle : Nat → FetchOutcome) :
    Response × List ReplyRequest × List DispatchLog :=
  if !truthyStr PAGE_ACCESS_TOKEN then
    ({ status := 500, body := "Server Config Error" }, [], [])
  else
    match parse with
    | Except.error _ =>
      ({ status := 200, body := "Internal Server Error Handled" }, [], [])
    | Except.ok body =>
      if body.object == "instagram" then
        let r := processEntriesO oracle 0 (body.entry.getD [])
        if r.crashed then
          ({ status := 200, body := "Internal Server Error Handled" },
           r.dispatched.map replyPayload, r.logs)
        else
          ({ status := 200, body := "EVENT_RECEIVED" },
           r.dispatched.map replyPayload, r.logs)
      else
        ({ status := 404, body := "Not Found" }, [], [])

/-- All change events of a payload, flattened in batch order. -/
def allChanges (p : WebhookPayload) : List WebhookChange :=
  (p.entry.getD []).flatMap fun e => e.changes.getD []

/-- The comment id a single change dispatches to, if any (ignoring throws). -/
def changeDispatchId (c : WebhookChange) : Option String :=
  match processChange c with
  | Except.ok d => d
  | Except.error _ => none

/-- The comment ids of the matching change events of a payload, in batch
order. -/
def matchingIds (p : WebhookPayload) : List String :=
  (allChanges p).filterMap changeDispatchId

/-- A payload is well-shaped when every comments-change carries its `value`
record, so that per-comment processing cannot throw. -/
def WellShaped (p : WebhookPayload) : Prop :=
  ∀ c ∈ allChanges p, c.field = "comments" → c.value ≠ none

/-- A single-entry, single-change payload carrying one comment event with
the given text and comment id — the fixture used to exercise the keyword
test end to end. -/
def singletonBatch (text cid : String) : WebhookPayload :=
  { object := "instagram",
    entry := some [{ id := "entry-1",
                     changes := some [{ field := "comments",
                                        value := some { from_ := none, item := none,
                                                        comment_id := some cid,
                                                        text := some text,
                                                        post_id := none } }] }] }

/-- `processChange` throws only on a comments-change whose `value` record is
absent. -/
theorem processChange_error (c : WebhookChange) (e : Unit)
    (hp : processChange c = Except.error e) :
    c.field = "comments" ∧ c.value = none := by
  unfold processChange at hp
  split at hp
  · split at hp
    · rename_i hf x hv
      exact ⟨by simpa using hf, hv⟩
    · dsimp only at hp
      split at hp
      · exact Except.noConfusion hp
      · split at hp <;> exact Except.noConfusion hp
  · exact Except.noConfusion hp

/-- On a change that cannot throw, `processChange` returns its dispatch
decision. -/
theorem processChange_ok (c : WebhookChange)
    (h : c.field = "comments" → c.value ≠ none) :
    processChange c = Except.ok (changeDispatchId c) := by
  unfold changeDispatchId
  cases hp : processChange c with
  | ok d => rfl
  | error e =>
    obtain ⟨hf, hv⟩ := processChange_error c e hp
    exact absurd hv (h hf)

/-- On a throw-free change list, the inner loop collects exactly the
dispatch decisions, in order, and does not crash. -/
theorem processChanges_eq (cs : List WebhookChange)
    (h : ∀ c ∈ cs, c.field = "comments" → c.value ≠ none) :
    processChanges cs = (cs.filterMap changeDispatchId, false) := by
  induction cs with
  | nil => rfl
  | cons c cs ih =>
    have hc := processChange_ok c (h c (List.mem_cons_self c cs))
    have hrest := ih fun x hx => h x (List.mem_cons_of_mem c hx)
    unfold processChanges
    rw [hc, List.filterMap_cons]
    cases hd : changeDispatchId c with
    | none => simp [hrest]
    | some cid => simp [hrest]

/-- On a throw-free batch, the outer loop collects the dispatch decisions of
all changes, flattened in batch order, and does not crash. -/
theorem processEntries_eq (es : List WebhookEntry)
    (h : ∀ e ∈ es, ∀ c ∈ e.changes.getD [], c.field = "comments" → c.value ≠ none) :
    processEntries es =
      ((es.flatMap fun e => e.changes.getD []).filterMap changeDispatchId, false) := by
  induction es with
  | nil => rfl
  | cons e es ih =>
    have hc := processChanges_eq (e.changes.getD []) (h e (List.mem_cons_self e es))
    have hrest := ih fun x hx => h x (List.mem_cons_of_mem e hx)
    unfold processEntries
    rw [hc, hrest]
    simp [List.flatMap_cons, List.filterMap_append]

/-- The instrumented inner loop dispatches to the same ids and crashes in
the same cases as the plain one, whatever the oracle answers. -/
theorem processChangesO_agree (oracle : Nat → FetchOutcome)
    (cs : List WebhookChange) :
    ∀ i, (processChangesO oracle i cs).dispatched = (processChanges cs).1 ∧
      (processChangesO oracle i cs).crashed = (processChanges cs).2 := by
  induction cs with
  | nil => exact fun i => ⟨rfl, rfl⟩
  | cons c cs ih =>
    intro i
    unfold processChangesO processChanges
    cases hp : processChange c with
    | error e => exact ⟨rfl, rfl⟩
    | ok d =>
      cases d with
      | none => exact ih i
      | some cid =>
        dsimp only
        exact ⟨congrArg (cid :: ·) (ih (i + 1)).1, (ih (i + 1)).2⟩

/-- The instrumented outer loop agrees with the plain one, whatever the
oracle answers. -/
theorem processEntriesO_agree (oracle : Nat → FetchOutcome)
    (es : List WebhookEntry) :
    ∀ i, (processEntriesO oracle i es).dispatched = (processEntries es).1 ∧
      (processEntriesO oracle i es).crashed = (processEntries es).2 := by
  induction es with
  | nil => exact fun i => ⟨rfl, rfl⟩
  | cons e es ih =>
    intro i
    have hc := processChangesO_agree oracle (e.changes.getD []) i
    unfold processEntriesO processEntries
    dsimp only
    cases hcr : (processChangesO oracle i (e.changes.getD [])).crashed with
    | true =>
      have h2 : (processChanges (e.changes.getD [])).2 = true := hc.2.symm.trans hcr
      simp [hcr, h2, hc.1]
    | false =>
      have h2 : (processChanges (e.changes.getD [])).2 = false := hc.2.symm.trans hcr
      have hi := ih (processChangesO oracle i (e.changes.getD [])).nextIdx
      simp [hcr, h2, hc.1, hi.1, hi.2]

/-- The instrumented handler returns the same response and dispatch list as
the plain one, whatever the oracle answers. -/
theorem POSTO_agree (acc : Option String) (parse : Except Unit WebhookPayload)
    (oracle : Nat → FetchOutcome) :
    (POSTO acc parse oracle).1 = (POST acc parse).1 ∧
    (POSTO acc parse oracle).2.1 = (POST acc parse).2 := by
  unfold POSTO POST
  cases ht : truthyStr acc with
  | false => simp [ht]
  | true =>
    simp only [ht, Bool.not_true, Bool.false_eq_true, if_false]
    cases parse with
    | error e => exact ⟨rfl, rfl⟩
    | ok body =>
      have hag := processEntriesO_agree oracle (body.entry.getD []) 0
      cases hobj : body.object == "instagram" with
      | false => simp [hobj]
      | true =>
        simp only [hobj, if_true]
        cases hcr : (processEntriesO oracle 0 (body.entry.getD [])).crashed with
        | true =>
          have h2 := hag.2.symm.trans hcr
          simp [hcr, h2, hag.1]
        | false =>
          have h2 := hag.2.symm.trans hcr
          simp [hcr, h2, hag.1]

/-- Entries that all lack a `changes` sequence contribute nothing and never
crash. -/
theorem processEntries_noChanges (es : List WebhookEntry)
    (h : ∀ e ∈ es, e.changes = none) :
    processEntries es = ([], false) := by
  induction es with
  | nil => rfl
  | cons e es ih =>
    have he := h e (List.mem_cons_self e es)
    have hrest := ih fun x hx => h x (List.mem_cons_of_mem e hx)
    unfold processEntries
    simp [he, hrest, processChanges]

/-- A present nonempty string is truthy. -/
theorem truthyStr_some {s : String} (h : s ≠ "") : truthyStr (some s) = true := by
  simp [truthyStr, h]

/-- On a single-comment batch with both fields present and nonempty, the
handler acknowledges with success and dispatches exactly when the keyword
test on the text succeeds. -/
theorem POST_singletonBatch (acc : Option String) (text cid : String)
    (hacc : truthyStr acc = true) (htext : text ≠ "") (hcid : cid ≠ "") :
    POST acc (Except.ok (singletonBatch text cid)) =
      ({ status := 200, body := "EVENT_RECEIVED" },
       if keywordHit text then [replyPayload cid] else []) := by
  cases hk : keywordHit text with
  | true =>
    simp [POST, singletonBatch, processEntries, processChanges, processChange,
      hacc, truthyStr_some htext, truthyStr_some hcid, hk]
  | false =>
    simp [POST, singletonBatch, processEntries, processChanges, processChange,
      hacc, truthyStr_some htext, truthyStr_some hcid, hk]

/-- Claim C1: with the access credential configured, any internal fault — a
JSON parse failure, or a throw during per-comment processing of an
`object == "instagram"` batch — makes the POST handler answer status 200
with body `Internal Server Error Handled`, a body distinct from the
normal-success `EVENT_RECEIVED`, and never a 5xx status. -/
theorem c1_internal_fault_handled (acc : Option String)
    (parse : Except Unit WebhookPayload) (hacc : truthyStr acc = true)
    (hfault : parse = Except.error () ∨
      ∃ p, parse = Except.ok p ∧ p.object = "instagram" ∧
        (processEntries (p.entry.getD [])).2 = true) :
    (POST acc parse).1 = { status := 200, body := "Internal Server Error Handled" } ∧
    "Internal Server Error Handled" ≠ "EVENT_RECEIVED" ∧
    (POST acc parse).1.status < 500 := by
  have h1 : (POST acc parse).1 =
      { status := 200, body := "Internal Server Error Handled" } := by
    cases hfault with
    | inl h => rw [h]; unfold POST; simp [hacc]
    | inr h =>
      obtain ⟨p, hp, hobj, hcr⟩ := h
      rw [hp]; unfold POST; simp [hacc, hobj, hcr]
  exact ⟨h1, by decide, by rw [h1]; decide⟩

/-- Claim C1, witness: a parse failure with a configured credential is
answered `200 Internal Server Error Handled`. -/
theorem c1_witness :
    truthyStr (some "token") = true ∧
    (POST (some "token") (Except.error ())).1 =
      { status := 200, body := "Internal Server Error Handled" } :=
  ⟨by decide,
   (c1_internal_fault_handled (some "token") (Except.error ())
     (by decide) (Or.inl rfl)).1⟩

/-- Claim C2: on an `object == "instagram"` batch whose comments-changes all
carry their value record, the dispatcher is invoked exactly once per
matching comment id, in batch order (the sequential loop awaits each
dispatch before the next event), each dispatch carries the fixed reply
message, and the success acknowledgment is the response returned together
with (hence after) the full dispatch list. -/
theorem c2_dispatch_per_match (acc : Option String) (p : WebhookPayload)
    (hacc : truthyStr acc = true) (hobj : p.object = "instagram")
    (hws : WellShaped p) :
    POST acc (Except.ok p) =
      ({ status := 200, body := "EVENT_RECEIVED" },
       (matchingIds p).map replyPayload) ∧
    ∀ r ∈ (POST acc (Except.ok p)).2, r.message_text = FIXED_MESSAGE := by
  have hE : processEntries (p.entry.getD []) = (matchingIds p, false) := by
    rw [processEntries_eq]
    · rfl
    · intro e he c hc
      exact hws c (List.mem_flatMap.mpr ⟨e, he, hc⟩)
  have h1 : POST acc (Except.ok p) =
      ({ status := 200, body := "EVENT_RECEIVED" },
       (matchingIds p).map replyPayload) := by
    unfold POST
    simp [hacc, hobj, hE]
  refine ⟨h1, ?_⟩
  rw [h1]
  intro r hr
  obtain ⟨cid, _, hcid⟩ := List.mem_map.mp hr
  rw [← hcid]
  rfl

/-- Claim C2, witness: a single matching comment produces exactly one
dispatch with the fixed message. -/
theorem c2_witness :
    WellShaped (singletonBatch "the Roadmap please" "c77") ∧
    POST (some "token") (Except.ok (singletonBatch "the Roadmap please" "c77")) =
      ({ status := 200, body := "EVENT_RECEIVED" }, [replyPayload "c77"]) := by
  have hws : WellShaped (singletonBatch "the Roadmap please" "c77") := by
    unfold WellShaped
    decide
  refine ⟨hws, ?_⟩
  have h := (c2_dispatch_per_match (some "token")
    (singletonBatch "the Roadmap please" "c77") (by decide) rfl hws).1
  rw [h]
  decide

/-- Claim C3: with the access credential absent (or empty, which JavaScript
treats the same), every POST answers `500 Server Config Error` with no
dispatch, independently of the request body — the parse outcome is never
consulted; and with a configured credential no status other than 200 or the
404 of a parsed non-instagram batch is ever produced. -/
theorem c3_missing_credential (acc : Option String)
    (hacc : truthyStr acc = false) :
    (∀ parse, POST acc parse = ({ status := 500, body := "Server Config Error" }, [])) ∧
    (∀ acc' parse', truthyStr acc' = true →
      (POST acc' parse').1.status = 200 ∨
      ((POST acc' parse').1 = { status := 404, body := "Not Found" } ∧
        ∃ p, parse' = Except.ok p ∧ p.object ≠ "instagram")) := by
  constructor
  · intro parse
    unfold POST
    simp [hacc]
  · intro acc' parse' h'
    unfold POST
    simp only [h', Bool.not_true, Bool.false_eq_true, if_false]
    cases parse' with
    | error e => left; rfl
    | ok p =>
      by_cases hobj : p.object = "instagram"
      · left
        simp only [hobj, beq_self_eq_true, if_true]
        cases hE : (processEntries (p.entry.getD [])).2 <;> simp [hE]
      · right
        refine ⟨by simp [hobj], p, rfl, hobj⟩

/-- Claim C3, witness: with no credential a parse failure still gets the
configuration error, untouched by the body. -/
theorem c3_witness :
    truthyStr none = false ∧
    POST none (Except.error ()) = ({ status := 500, body := "Server Config Error" }, []) ∧
    POST none (Except.ok { object := "instagram", entry := none }) =
      ({ status := 500, body := "Server Config Error" }, []) :=
  ⟨by decide,
   (c3_missing_credential none (by decide)).1 (Except.error ()),
   (c3_missing_credential none (by decide)).1
     (Except.ok { object := "instagram", entry := none })⟩

/-- Claim C4: with a configured credential, a parsed batch whose `object` is
not `"instagram"` is answered `404 Not Found` and nothing is dispatched. -/
theorem c4_non_instagram_not_found (acc : Option String) (p : WebhookPayload)
    (hacc : truthyStr acc = true) (hobj : p.object ≠ "instagram") :
    POST acc (Except.ok p) = ({ status := 404, body := "Not Found" }, []) := by
  unfold POST
  simp [hacc, hobj]

/-- Claim C4, witness: a `"page"` batch gets 404 and no dispatch. -/
theorem c4_witness :
    truthyStr (some "token") = true ∧
    POST (some "token") (Except.ok { object := "page", entry := none }) =
      ({ status := 404, body := "Not Found" }, []) :=
  ⟨by decide,
   c4_non_instagram_not_found (some "token") { object := "page", entry := none }
     (by decide) (by decide)⟩

/-- Claim C5: the keyword test is a case-insensitive substring match for
`roadmap`: with both fields present, the texts `Roadmap?`, `ROADMAP please`
and `see the roadmapping doc` each dispatch exactly one reply, while the
space-separated `road map` dispatches none. -/
theorem c5_keyword_cases (acc : Option String) (cid : String)
    (hacc : truthyStr acc = true) (hcid : cid ≠ "") :
    (POST acc (Except.ok (singletonBatch "Roadmap?" cid))).2 = [replyPayload cid] ∧
    (POST acc (Except.ok (singletonBatch "ROADMAP please" cid))).2 = [replyPayload cid] ∧
    (POST acc (Except.ok (singletonBatch "see the roadmapping doc" cid))).2 = [replyPayload cid] ∧
    (POST acc (Except.ok (singletonBatch "road map" cid))).2 = [] := by
  refine ⟨?_, ?_, ?_, ?_⟩
  · rw [POST_singletonBatch acc "Roadmap?" cid hacc (by decide) hcid]
    simp [show keywordHit "Roadmap?" = true by decide]
  · rw [POST_singletonBatch acc "ROADMAP please" cid hacc (by decide) hcid]
    simp [show keywordHit "ROADMAP please" = true by decide]
  · rw [POST_singletonBatch acc "see the roadmapping doc" cid hacc (by decide) hcid]
    simp [show keywordHit "see the roadmapping doc" = true by decide]
  · rw [POST_singletonBatch acc "road map" cid hacc (by decide) hcid]
    simp [show keywordHit "road map" = false by decide]

/-- Claim C5, witness: `Roadmap?` triggers one dispatch on a concrete
batch. -/
theorem c5_witness :
    truthyStr (some "token") = true ∧ ("c1" : String) ≠ "" ∧
    (POST (some "token") (Except.ok (singletonBatch "Roadmap?" "c1"))).2 =
      [replyPayload "c1"] := by
  refine ⟨by decide, by decide, ?_⟩
  exact (c5_keyword_cases (some "token") "c1" (by decide) (by decide)).1

/-- Claim C6, amended: a GET with `mode == "subscribe"` and a token equal to
the configured secret is answered 200 with the literal challenge as body;
any other combination (wrong mode, wrong token, missing token) is answered
`403 Forbidden`. (The original claim's aside that the 403 body is never the
challenge value fails when the challenge itself is the string `Forbidden`;
see the counterexample.) -/
theorem c6_get_verification (secret : Option String) (req : GetRequest) :
    (req.mode = some "subscribe" ∧ optStrEq req.token secret = true →
      GET secret req = { status := 200, body := req.challenge }) ∧
    (¬(req.mode = some "subscribe" ∧ optStrEq req.token secret = true) →
      GET secret req = { status := 403, body := some "Forbidden" }) := by
  constructor
  · rintro ⟨hm, ht⟩
    unfold GET
    simp [hm, ht]
  · intro h
    unfold GET
    have hcond : ¬((req.mode == some "subscribe" && optStrEq req.token secret) = true) := by
      intro hc
      simp only [Bool.and_eq_true, beq_iff_eq] at hc
      exact h hc
    simp [hcond]

/-- Claim C6, witness: a correct handshake echoes the challenge at 200. -/
theorem c6_get_verification_witness :
    GET (some "sec") { mode := some "subscribe", token := some "sec", challenge := some "ch" } =
      { status := 200, body := some "ch" } :=
  (c6_get_verification (some "sec")
    { mode := some "subscribe", token := some "sec", challenge := some "ch" }).1
    ⟨rfl, by decide⟩

/-- Claim C6, counterexample: when the supplied challenge is the string
`Forbidden`, a rejected request's 403 body equals the challenge value, so
the original claim's assertion that the 403 body is not the challenge value
is false at this input. -/
theorem c6_forbidden_body_equals_challenge :
    (GET (some "secret")
        { mode := some "subscribe", token := some "wrong", challenge := some "Forbidden" }) =
      { status := 403, body := some "Forbidden" } ∧
    (GET (some "secret")
        { mode := some "subscribe", token := some "wrong", challenge := some "Forbidden" }).body =
      ({ mode := some "subscribe", token := some "wrong",
         challenge := some "Forbidden" } : GetRequest).challenge := by
  decide

/-- Claim C7: with the verification secret unset, every GET — any mode,
token and challenge, the token possibly missing — is answered
`403 Forbidden`: no supplied token compares equal to an absent secret. -/
theorem c7_missing_secret_fails_closed (req : GetRequest) :
    GET none req = { status := 403, body := some "Forbidden" } := by
  unfold GET
  have h : optStrEq req.token none = false := by cases req.token <;> rfl
  simp [h]

/-- Claim C8: the dispatcher never propagates failure: a transport throw is
absorbed as a transport-error log, an application-level `error` field as an
API-error log, and the handler's response and dispatch list are identical
under every assignment of outcomes to the outbound calls. -/
theorem c8_dispatcher_never_propagates (cid : String) (acc : Option String)
    (parse : Except Unit WebhookPayload) (o₁ o₂ : Nat → FetchOutcome) :
    sendPrivateReply cid FetchOutcome.throws = DispatchLog.transportError ∧
    sendPrivateReply cid (FetchOutcome.responds true) = DispatchLog.apiError ∧
    sendPrivateReply cid (FetchOutcome.responds false) = DispatchLog.success ∧
    (POSTO acc parse o₁).1 = (POSTO acc parse o₂).1 ∧
    (POSTO acc parse o₁).2.1 = (POSTO acc parse o₂).2.1 := by
  refine ⟨rfl, rfl, rfl, ?_, ?_⟩
  · exact (POSTO_agree acc parse o₁).1.trans (POSTO_agree acc parse o₂).1.symm
  · exact (POSTO_agree acc parse o₁).2.trans (POSTO_agree acc parse o₂).2.symm

/-- Claim C9: an `object == "instagram"` batch with no `entry` sequence, or
whose entries all lack `changes`, is acknowledged `200 EVENT_RECEIVED` with
zero dispatches — absence is treated as emptiness, not as an error. -/
theorem c9_absent_sequences (acc : Option String) (p : WebhookPayload)
    (hacc : truthyStr acc = true) (hobj : p.object = "instagram")
    (habs : p.entry = none ∨ ∀ e ∈ p.entry.getD [], e.changes = none) :
    POST acc (Except.ok p) = ({ status := 200, body := "EVENT_RECEIVED" }, []) := by
  have hE : processEntries (p.entry.getD []) = ([], false) := by
    cases habs with
    | inl h => rw [h]; rfl
    | inr h => exact processEntries_noChanges _ h
  unfold POST
  simp [hacc, hobj, hE]

/-- Claim C9, witness: a batch with no entries is acknowledged with zero
dispatches. -/
theorem c9_witness :
    truthyStr (some "token") = true ∧
    POST (some "token") (Except.ok { object := "instagram", entry := none }) =
      ({ status := 200, body := "EVENT_RECEIVED" }, []) :=
  ⟨by decide,
   c9_absent_sequences (some "token") { object := "instagram", entry := none }
     (by decide) rfl (Or.inl rfl)⟩

/-- Claim C10: an empty string behaves like an absent field in the presence
check: a comments event whose `text` or `comment_id` is present but empty is
skipped without dispatch, the remaining events are still processed, and the
batch ends in the success acknowledgment. -/
theorem c10_empty_string_skipped (acc : Option String)
    (hacc : truthyStr acc = true) (v : ChangeValue)
    (hv : v.text = some "" ∨ v.comment_id = some "")
    (eid : String) (rest : List WebhookChange)
    (hrest : ∀ c ∈ rest, c.field = "comments" → c.value ≠ none) :
    POST acc (Except.ok
      { object := "instagram",
        entry := some [{ id := eid,
                         changes := some ({ field := "comments", value := some v } :: rest) }] }) =
      ({ status := 200, body := "EVENT_RECEIVED" },
       (rest.filterMap changeDispatchId).map replyPayload) := by
  have hskip : processChange { field := "comments", value := some v } = Except.ok none := by
    unfold processChange
    simp only [beq_self_eq_true, if_true]
    cases hv with
    | inl h => simp [h, truthyStr]
    | inr h =>
      cases ht : truthyStr v.text with
      | false => simp [ht]
      | true => simp [h, truthyStr, ht]
  have hchs : processChanges ({ field := "comments", value := some v } :: rest) =
      (rest.filterMap changeDispatchId, false) := by
    unfold processChanges
    rw [hskip]
    exact processChanges_eq rest hrest
  unfold POST
  simp only [hacc, Bool.not_true, Bool.false_eq_true, if_false, beq_self_eq_true, if_true]
  unfold processEntries
  simp [hchs, processEntries]

/-- Claim C10, witness: a keyword-matching comment with an empty
`comment_id` is skipped while the following matching comment still
dispatches, and the batch succeeds. -/
theorem c10_witness :
    POST (some "token") (Except.ok
      { object := "instagram",
        entry := some [{ id := "e1",
                         changes := some [{ field := "comments",
                                            value := some { from_ := none, item := none,
                                                            comment_id := some "",
                                                            text := some "the roadmap",
                                                            post_id := none } },
                                          { field := "comments",
                                            value := some { from_ := none, item := none,
                                                            comment_id := some "c9",
                                                            text := some "roadmap too",
                                                            post_id := none } }] }] }) =
      ({ status := 200, body := "EVENT_RECEIVED" }, [replyPayload "c9"]) := by
  have h := c10_empty_string_skipped (some "token") (by decide)
    { from_ := none, item := none, comment_id := some "", text := some "the roadmap", post_id := none }
    (Or.inr rfl) "e1"
    [{ field := "comments",
       value := some { from_ := none, item := none, comment_id := some "c9",
                       text := some "roadmap too", post_id := none } }]
    (by decide)
  rw [h]
  decide

end InstaDM
